import Mathlib

/-!
Verification of the SuperCommand extension build-and-execution pipeline.

Shallow embedding of the two source files:
* `src/main/extension-runner.ts` (main process): discovery of installed
  extension commands, entry resolution, and the mtime-validated build cache.
* the renderer's `ExtensionView` module: sandbox loader (`fakeRequire`,
  `loadExtensionExport`, `ensureGlobals`, the host-builtin stub table) and
  the command lifecycle (`NoViewRunner`, `SafeViewRenderer`, navigation).

JavaScript values are abstracted by the only observations the embedded code
makes of them (truthiness, callability, presence of a callable `then`,
React-element-ness); fallible operations (filesystem stats, JSON parsing,
promise settlement, thrown exceptions) are modelled with `Except`/`Option`.
-/

namespace SuperCommand

-- ───────────────────────── Sandbox module resolution (C1) ─────────────────────────

/-- `fsStub.existsSync` always reports `false`. -/
def fsStub_existsSync : Bool := false

/-- `fsStub.readFileSync` always returns the empty string. -/
def fsStub_readFileSync : String := ""

/-- `fsStub.readdirSync` always returns an empty listing. -/
def fsStub_readdirSync : List String := []

/-- `fsStub.promises.readFile` (`noopAsync`): a promise that resolves with an
empty payload.  `Except.ok` models successful resolution, `Except.error` a
rejection. -/
def fsPromisesStub_readFile : Except String Unit := Except.ok ()

/-- `fsStub.promises.readdir` resolves with an empty listing. -/
def fsPromisesStub_readdir : Except String (List String) := Except.ok []

/-- `osStub.platform()` reports a fixed platform name. -/
def osStub_platform : String := "darwin"

/-- `tty.isatty` stub always reports `false`. -/
def ttyStub_isatty : Bool := false

/-- `bufferStub.Buffer.isBuffer` always reports `false`. -/
def bufferStub_isBuffer : Bool := false

/-- The observable fields of the `process` stub in `nodeBuiltinStubs`. -/
structure ProcessStubData where
  env : List (String × String)
  cwd : String
  platform : String
  version : String
  argv : List String
deriving DecidableEq

/-- The `process` stub: empty environment, fixed platform identity. -/
def processStub : ProcessStubData :=
  ⟨[], "/", "darwin", "v18.0.0", []⟩

/-- The `assert` stub: `(v) => { if (!v) throw new Error('Assertion failed') }`.
The argument is abstracted by its JS truthiness; `Except.error` models the
thrown exception. -/
def assertStub (truthy : Bool) : Except String Unit :=
  if truthy then Except.ok () else Except.error "Assertion failed"

/-- A URL string as the `url` stub's `parse` observes it: whether `new URL`
accepts it, plus its text (standing for the parsed URL object's href on
success). -/
structure UrlString where
  wellFormed : Bool
  text : String
deriving DecidableEq

/-- The `url` stub's `parse`: `(u: string) => new URL(u)`.  The `URL`
constructor throws (`Invalid URL`) on a malformed input and returns the
parsed URL object otherwise — a live value, not an inert default. -/
def urlStub_parse (u : UrlString) : Except String String :=
  if u.wellFormed then Except.ok u.text else Except.error "Invalid URL"

/-- A JS value as `utilStub.inspect` observes it: whether it is circular,
and its JSON serialization otherwise. -/
structure JsObjectShape where
  circular : Bool
  json : String
deriving DecidableEq

/-- `utilStub.inspect`: `(o) => JSON.stringify(o)`, which throws on a
circular value and returns the serialization otherwise. -/
def utilStub_inspect (o : JsObjectShape) : Except String String :=
  if o.circular then Except.error "Converting circular structure to JSON"
  else Except.ok o.json

-- ───────────────────────── Global capability injection (C4) ─────────────────────────

/-- Values that can sit in a global binding in this model. -/
inductive GVal
  | processStub
  | bufferCtor
  | theGlobalObject
  | hostVal (id : Nat)
deriving DecidableEq

/-- The renderer's global scope, as a partial map from names to values.  The
global object itself is the ambient state; the binding `"globalThis"` is the
host's own self-reference to it and exists before any extension code runs. -/
abbrev GlobalEnv : Type := String → Option GVal

/-- One presence-gated assignment `if (!(globalThis as any).x) { ... = v }`:
it writes `v` under `name` only when no binding is present. -/
def setIfAbsent (env : GlobalEnv) (name : String) (v : GVal) : GlobalEnv :=
  match env name with
  | some _ => env
  | none => fun n => if n = name then some v else env n

/-- `ensureGlobals` from the ExtensionView module: the three guarded
injections of `process`, `Buffer` and `global` (the last binds the global
object itself under its Node-conventional alias). -/
def ensureGlobals (env : GlobalEnv) : GlobalEnv :=
  setIfAbsent
    (setIfAbsent
      (setIfAbsent env "process" GVal.processStub)
      "Buffer" GVal.bufferCtor)
    "global" GVal.theGlobalObject

-- ───────────────────────── Sandbox loader export extraction (C8, C10) ─────────────────────────

/-- A JavaScript value abstracted by the two observations the loader makes:
truthiness (`exports.default || exports`) and callability
(`typeof exported === 'function'`).  The `id` keeps distinct values apart so
"that very callable is returned" is expressible. -/
inductive JsVal
  | fnVal (id : Nat)
  | truthyObj (id : Nat)
  | falsyVal (id : Nat)
deriving DecidableEq

/-- JS truthiness of an abstracted value. -/
def jsTruthy : JsVal → Bool
  | JsVal.fnVal _ => true
  | JsVal.truthyObj _ => true
  | JsVal.falsyVal _ => false

/-- JS callability (`typeof v === 'function'`). -/
def jsCallable : JsVal → Bool
  | JsVal.fnVal _ => true
  | JsVal.truthyObj _ => false
  | JsVal.falsyVal _ => false

/-- The observable state of `fakeModule.exports` after the bundle ran:
the exports value itself (the bundle may reassign `module.exports`) and its
`default` property (`none` = property absent). -/
structure ExportsObj where
  self : JsVal
  defaultProp : Option JsVal
deriving DecidableEq

/-- The tail of `loadExtensionExport`: executing the bundle either throws
(`Except.error`, covering both syntax and runtime errors — the whole body sits
in one `try`) or leaves an exports object.  Then
`exported = fakeModule.exports.default || fakeModule.exports` and the result
is `exported` when callable, otherwise `null` (logged). -/
def loadExtensionExport : Except String ExportsObj → Option JsVal
  | Except.error _ => none
  | Except.ok ex =>
    let exported :=
      match ex.defaultProp with
      | some d => if jsTruthy d then d else ex.self
      | none => ex.self
    if jsCallable exported then some exported else none

-- ───────────────────────── View-mode classification probe (C3) ─────────────────────────

/-- The probe's view of the value returned by the entry function. -/
inductive ProbeValue
  | thenable
  | element
  | nullVal
  | undefinedVal
  | otherTruthy
  | otherFalsy
deriving DecidableEq

/-- JS truthiness of a probe value. -/
def probeTruthy : ProbeValue → Bool
  | ProbeValue.thenable => true
  | ProbeValue.element => true
  | ProbeValue.otherTruthy => true
  | _ => false

/-- Whether the value has a callable `then` property. -/
def hasCallableThen : ProbeValue → Bool
  | ProbeValue.thenable => true
  | _ => false

/-- `React.isValidElement`. -/
def isValidElement : ProbeValue → Bool
  | ProbeValue.element => true
  | _ => false

/-- Invoking the entry function once either returns a value or throws. -/
inductive ProbeOutcome
  | returns (v : ProbeValue)
  | throws
deriving DecidableEq

/-- The `useMemo` body of `SafeViewRenderer`: a synchronous throw yields
`undefined`; a truthy result with a callable `then` yields `null`; any other
result is passed through. -/
def computeElement : ProbeOutcome → ProbeValue
  | ProbeOutcome.throws => ProbeValue.undefinedVal
  | ProbeOutcome.returns v =>
    if probeTruthy v && hasCallableThen v then ProbeValue.nullVal else v

/-- What `SafeViewRenderer` does with the computed element. -/
inductive RenderAction
  | reclassifyNoView
  | renderElement
  | instantiateComponent
deriving DecidableEq

/-- `SafeViewRenderer`: `element === null` fires `onNoView` (reclassify);
a valid React element is rendered as-is; anything else (including the
undefined left by a synchronous throw) renders `<Component />` normally. -/
def safeViewRender (o : ProbeOutcome) : RenderAction :=
  if computeElement o = ProbeValue.nullVal then RenderAction.reclassifyNoView
  else if isValidElement (computeElement o) then RenderAction.renderElement
  else RenderAction.instantiateComponent

/-- `isNoView` from `ExtensionView`:
`mode === 'no-view' || mode === 'menu-bar' || detectedNoView`. -/
def isNoView (mode : String) (detectedNoView : Bool) : Bool :=
  mode = "no-view" || mode = "menu-bar" || detectedNoView

-- ───────────────────────── No-view runner (C7) ─────────────────────────

/-- Lifecycle status of `NoViewRunner` (`'running' | 'done' | 'error'`). -/
inductive RunStatus
  | running
  | done
  | error
deriving DecidableEq

/-- Settlement of the awaited entry-function call. -/
inductive RunOutcome
  | success
  | failure (msg : Option String)
deriving DecidableEq

/-- The observable component state: status, captured error message, and the
delay of a scheduled `setTimeout(onClose, …)` if one was armed. -/
structure RunnerState where
  status : RunStatus
  errorMsg : String
  closeDelayMs : Option Nat
deriving DecidableEq

/-- Initial state: `useState('running')`, empty message, no close scheduled. -/
def initialRunnerState : RunnerState :=
  ⟨RunStatus.running, "", none⟩

/-- `e?.message || 'Command failed'`: a missing or falsy (empty) message falls
back to the fixed text. -/
def capturedMessage : Option String → String
  | some s => if s = "" then "Command failed" else s
  | none => "Command failed"

/-- The settlement handler of `NoViewRunner`'s effect: both branches are
guarded by the one-shot `cancelled` flag; success sets `done` and schedules
close after 600 ms; failure sets `error` and captures the message (and
schedules nothing). -/
def settle (cancelled : Bool) (out : RunOutcome) (s : RunnerState) : RunnerState :=
  if cancelled then s
  else
    match out with
    | RunOutcome.success => ⟨RunStatus.done, s.errorMsg, some 600⟩
    | RunOutcome.failure m => ⟨RunStatus.error, capturedMessage m, s.closeDelayMs⟩

-- ───────────────────────── Navigation stack (C6) ─────────────────────────

/-- One command session's navigation state: the pushed frames (top = last)
and whether `onClose` has been requested.  Frames are abstracted by ids. -/
structure NavSession where
  stack : List Nat
  closed : Bool
deriving DecidableEq

/-- `push`: `setNavStack(prev => [...prev, element])`. -/
def push (el : Nat) (s : NavSession) : NavSession :=
  ⟨s.stack ++ [el], s.closed⟩

/-- `pop`: drop the top frame when the stack is non-empty, otherwise call
`onClose()` and leave the stack untouched. -/
def pop (s : NavSession) : NavSession :=
  if s.stack.isEmpty then ⟨s.stack, true⟩ else ⟨s.stack.dropLast, s.closed⟩

/-- Push a whole list of frames in order. -/
def pushAll (frames : List Nat) (s : NavSession) : NavSession :=
  frames.foldl (fun acc f => push f acc) s

/-- Apply `pop` a given number of times. -/
def popN : Nat → NavSession → NavSession
  | 0, s => s
  | n + 1, s => popN n (pop s)

-- ───────────────────────── Build cache (C2) ─────────────────────────

/-- The filesystem facts `buildExtensionCommand` consults once the entry file
is resolved: whether the cached output file exists, whether `statSync` on both
files succeeds (the source swallows stat errors), both modification times,
the cached text, and what the bundler would produce (`none` = esbuild throws
or writes nothing). -/
structure BuildState where
  outExists : Bool
  statOk : Bool
  srcMtime : Nat
  outMtime : Nat
  cachedText : String
  bundlerOutput : Option String
deriving DecidableEq

/-- Result of one `buildExtensionCommand` call: the returned bundle text
(`none` = build failure), whether the bundler ran, and the filesystem state
afterwards. -/
structure BuildResult where
  result : Option String
  rebuilt : Bool
  after : BuildState
deriving DecidableEq

/-- The cache check: `fs.existsSync(outFile)` and, inside the `try`,
`outMtime > srcMtime`. -/
def cacheHit (st : BuildState) : Bool :=
  st.outExists && st.statOk && decide (st.srcMtime < st.outMtime)

/-- `buildExtensionCommand` from the resolved entry file onwards: a cache hit
returns the cached text verbatim with no rebuild; otherwise esbuild runs and,
on success, the output file is (re)written and its text returned; an esbuild
failure is caught and yields `null`. -/
def buildExtensionCommand (st : BuildState) : BuildResult :=
  if cacheHit st then ⟨some st.cachedText, false, st⟩
  else
    match st.bundlerOutput with
    | some out => ⟨some out, true, { st with outExists := true, cachedText := out }⟩
    | none => ⟨none, true, st⟩

-- ───────────────────────── Discovery (C9) ─────────────────────────

/-- `cmd.title || cmd.name` and friends: JS `||` with a string default,
treating a present-but-empty string as falsy. -/
def jsOr (o : Option String) (d : String) : String :=
  match o with
  | some s => if s = "" then d else s
  | none => d

instance instDecEqExcept {ε α : Type} [DecidableEq ε] [DecidableEq α] :
    DecidableEq (Except ε α) := fun x y =>
  match x, y with
  | Except.ok a, Except.ok b =>
    if h : a = b then isTrue (by rw [h]) else isFalse (by simp [h])
  | Except.error a, Except.error b =>
    if h : a = b then isTrue (by rw [h]) else isFalse (by simp [h])
  | Except.ok _, Except.error _ => isFalse (by simp)
  | Except.error _, Except.ok _ => isFalse (by simp)

/-- `.toLowerCase()`, implemented structurally so that concrete discovery
runs reduce inside the kernel. -/
def jsToLower (s : String) : String :=
  ⟨s.data.map Char.toLower⟩

/-- An icon file as `getExtensionIconDataUrl` observes it. -/
structure IconFile where
  byteLength : Nat
  pathExt : String
  base64 : String
deriving DecidableEq

/-- One icon path candidate: whether it exists, and what reading it gives
(`Except.error` = `readFileSync` throws). -/
structure IconCandidate where
  fileExists : Bool
  readResult : Except Unit IconFile
deriving DecidableEq

/-- The mime dispatch on the lower-cased path extension. -/
def mimeFor (ext : String) : String :=
  if ext = ".svg" then "image/svg+xml"
  else if ext = ".jpg" || ext = ".jpeg" then "image/jpeg"
  else "image/png"

/-- `getExtensionIconDataUrl`: walk the candidates; skip missing files,
swallowed read errors, and files under 50 bytes; embed the first survivor as
a data URL.  Total — every failure path just moves on. -/
def getExtensionIconDataUrl : List IconCandidate → Option String
  | [] => none
  | c :: rest =>
    if c.fileExists then
      match c.readResult with
      | Except.ok f =>
        if f.byteLength < 50 then getExtensionIconDataUrl rest
        else some ("data:" ++ mimeFor f.pathExt ++ ";base64," ++ f.base64)
      | Except.error _ => getExtensionIconDataUrl rest
    else getExtensionIconDataUrl rest

/-- One entry of `pkg.commands`: either a value whose property access throws
(e.g. `null`, aborting the rest of this extension's loop inside the outer
`try`), or an object with a name and optional title/description/mode.  A
missing or non-string name is abstracted as the empty (falsy) string. -/
inductive CmdEntryRaw
  | malformed
  | entry (name : String) (title description mode : Option String)
deriving DecidableEq

/-- One launcher row, mirroring `ExtensionCommandInfo`. -/
structure ExtensionCommandInfo where
  id : String
  title : String
  extName : String
  cmdName : String
  description : String
  mode : String
  keywords : List String
  iconDataUrl : Option String
deriving DecidableEq

/-- Build one descriptor exactly as the `results.push({...})` does. -/
def mkCommandInfo (dir : String) (pkgTitle iconDataUrl : Option String)
    (name : String) (title description mode : Option String) : ExtensionCommandInfo :=
  { id := "ext-" ++ dir ++ "-" ++ name
    title := jsOr title name
    extName := dir
    cmdName := name
    description := jsOr description ""
    mode := jsOr mode "view"
    keywords :=
      ([dir, jsOr pkgTitle "", name, jsOr title "", jsOr description ""].filter
        (fun s => s ≠ "")).map jsToLower
    iconDataUrl := iconDataUrl }

/-- The `for (const cmd of pkg.commands || [])` loop: a falsy name is skipped
(`continue`), a malformed entry throws into the per-extension `catch`, keeping
what was already pushed and dropping the rest of this extension. -/
def processCommands (dir : String) (pkgTitle iconDataUrl : Option String) :
    List CmdEntryRaw → List ExtensionCommandInfo
  | [] => []
  | CmdEntryRaw.malformed :: _ => []
  | CmdEntryRaw.entry name t d m :: rest =>
    if name = "" then processCommands dir pkgTitle iconDataUrl rest
    else mkCommandInfo dir pkgTitle iconDataUrl name t d m ::
      processCommands dir pkgTitle iconDataUrl rest

/-- A parsed `package.json` as discovery reads it. -/
structure Pkg where
  title : Option String
  icon : Option String
  commands : Option (List CmdEntryRaw)
deriving DecidableEq

/-- One subdirectory of the extensions root: its name, the outcome of
`statSync` (`Except.error` = throws, `ok b` = `isDirectory()` result),
whether `package.json` exists, the outcome of `JSON.parse`, and the icon
candidates derived from `pkg.icon || 'icon.png'`. -/
structure ExtEntry where
  dirName : String
  statResult : Except Unit Bool
  pkgJsonExists : Bool
  pkgParse : Except Unit Pkg
  iconCandidates : List IconCandidate
deriving DecidableEq

/-- The extensions root as discovery sees it. -/
structure ExtFS where
  rootExists : Bool
  entries : List ExtEntry
deriving DecidableEq

/-- The per-extension body of the discovery loop, including both `try` blocks:
stat errors, non-directories, a missing `package.json` and parse errors all
contribute nothing; otherwise the command loop runs with the (possibly
absent) icon. -/
def discoverOne (e : ExtEntry) : List ExtensionCommandInfo :=
  match e.statResult with
  | Except.error _ => []
  | Except.ok isDir =>
    if !isDir then []
    else if !e.pkgJsonExists then []
    else
      match e.pkgParse with
      | Except.error _ => []
      | Except.ok pkg =>
        processCommands e.dirName pkg.title
          (getExtensionIconDataUrl e.iconCandidates)
          (pkg.commands.getD [])

/-- `discoverInstalledExtensionCommands`: an absent root yields `[]`;
otherwise the flat concatenation of every extension's contribution. -/
def discoverInstalledExtensionCommands (fs : ExtFS) : List ExtensionCommandInfo :=
  if fs.rootExists then fs.entries.flatMap discoverOne else []

/-- An extension entry that discovery must isolate: `statSync` throws, the
path is not a directory, `package.json` is missing, or the manifest is
malformed. -/
def badExtensionEntry (e : ExtEntry) : Prop :=
  e.statResult = Except.error () ∨ e.statResult = Except.ok false ∨
    e.pkgJsonExists = false ∨ e.pkgParse = Except.error ()

-- ───────────────────────── Concrete sample data for witnesses ─────────────────────────

/-- A well-formed command entry. -/
def sampleCmd : CmdEntryRaw :=
  CmdEntryRaw.entry "hello" (some "Hello") (some "Say hi") (some "view")

/-- A healthy installed extension. -/
def goodExtEntry : ExtEntry :=
  ⟨"demo", Except.ok true, true,
    Except.ok ⟨some "Demo", some "icon.png", some [sampleCmd]⟩, []⟩

/-- An extension whose manifest fails to parse. -/
def badExtEntry : ExtEntry :=
  ⟨"broken", Except.ok true, true, Except.error (), []⟩

/-- A cache-hit build state: output present and strictly newer than source. -/
def sampleHitState : BuildState :=
  ⟨true, true, 1, 2, "cached-bundle", some "fresh-bundle"⟩

/-- A stale build state: source mtime equals the output's. -/
def sampleStaleState : BuildState :=
  ⟨true, true, 5, 5, "cached-bundle", some "fresh-bundle"⟩

/-- A global scope holding only the host's `globalThis` self-reference and a
pre-existing host `Buffer` binding. -/
def sampleGlobalEnv : GlobalEnv := fun n =>
  if n = "globalThis" then some GVal.theGlobalObject
  else if n = "Buffer" then some (GVal.hostVal 5)
  else none

/-- A URL string `new URL` accepts. -/
def sampleGoodUrl : UrlString := ⟨true, "https://example.com/"⟩

/-- A URL string `new URL` rejects (e.g. `'foo'`). -/
def sampleBadUrl : UrlString := ⟨false, "foo"⟩

/-- A non-circular value (`null`) and its serialization. -/
def samplePlainObj : JsObjectShape := ⟨false, "null"⟩

/-- A circular value, on which `JSON.stringify` throws. -/
def sampleCircularObj : JsObjectShape := ⟨true, ""⟩

-- ═════════════════════════ Helper lemmas ═════════════════════════

theorem setIfAbsent_same (env : GlobalEnv) (name : String) (v : GVal) :
    setIfAbsent env name v name = some ((env name).getD v) := by
  cases h : env name <;> simp [setIfAbsent, h]

theorem setIfAbsent_ne (env : GlobalEnv) (name : String) (v : GVal) (m : String)
    (h : m ≠ name) : setIfAbsent env name v m = env m := by
  cases he : env name <;> simp [setIfAbsent, he, h]

theorem setIfAbsent_of_isSome (env : GlobalEnv) (name : String) (v : GVal)
    (h : (env name).isSome) : setIfAbsent env name v = env := by
  cases he : env name
  · rw [he] at h; simp at h
  · simp [setIfAbsent, he]

theorem discoverOne_bad {e : ExtEntry} (h : badExtensionEntry e) :
    discoverOne e = [] := by
  rcases h with h | h | h | h
  · simp [discoverOne, h]
  · simp [discoverOne, h]
  · cases hs : e.statResult with
    | error u => simp [discoverOne, hs]
    | ok b =>
      cases b
      · simp [discoverOne, hs]
      · simp [discoverOne, hs, h]
  · cases hs : e.statResult with
    | error u => simp [discoverOne, hs]
    | ok b =>
      cases b
      · simp [discoverOne, hs]
      · cases hpj : e.pkgJsonExists
        · simp [discoverOne, hs, hpj]
        · simp [discoverOne, hs, hpj, h]

theorem pushAll_spec (frames : List Nat) :
    ∀ s : NavSession, pushAll frames s = ⟨s.stack ++ frames, s.closed⟩ := by
  induction frames with
  | nil => intro s; simp [pushAll]
  | cons f fs ih =>
    intro s
    show pushAll fs (push f s) = _
    rw [ih (push f s)]
    simp [push]

theorem pop_nonempty (s : NavSession) (h : s.stack ≠ []) :
    pop s = ⟨s.stack.dropLast, s.closed⟩ := by
  have hie : s.stack.isEmpty = false := by
    cases hs : s.stack
    · exact absurd hs h
    · rfl
  simp [pop, hie]

theorem pop_empty (s : NavSession) (h : s.stack = []) :
    pop s = ⟨s.stack, true⟩ := by
  simp [pop, h]

theorem popN_drain (n : Nat) :
    ∀ (l : List Nat) (c : Bool), l.length = n → popN n ⟨l, c⟩ = ⟨[], c⟩ := by
  induction n with
  | zero =>
    intro l c h
    have hl : l = [] := List.length_eq_zero.mp h
    subst hl; rfl
  | succ n ih =>
    intro l c h
    have hne : l ≠ [] := by intro e; subst e; simp at h
    show popN n (pop ⟨l, c⟩) = ⟨[], c⟩
    rw [pop_nonempty ⟨l, c⟩ hne]
    exact ih l.dropLast c (by rw [List.length_dropLast, h]; rfl)

theorem cacheHit_iff (st : BuildState) :
    cacheHit st = true ↔
      st.outExists = true ∧ st.statOk = true ∧ st.srcMtime < st.outMtime := by
  simp [cacheHit, and_assoc]

theorem rebuilt_eq_false_iff (st : BuildState) :
    (buildExtensionCommand st).rebuilt = false ↔ cacheHit st = true := by
  unfold buildExtensionCommand
  by_cases h : cacheHit st = true
  · simp [h]
  · simp only [h, if_neg]
    cases st.bundlerOutput <;> simp [h]

-- ═════════════════════════ Claim theorems ═════════════════════════

/-- C2: a cached bundle is used (returned verbatim, nothing rebuilt or
rewritten) iff the cache file exists and its mtime is strictly newer than the
entry file's; when the entry's mtime is equal or later, the bundler runs and
the cache file is rewritten with (and the call returns) the fresh output. -/
theorem c2_cache_validity (st : BuildState) (hstat : st.statOk = true) :
    ((buildExtensionCommand st).rebuilt = false ↔
      st.outExists = true ∧ st.srcMtime < st.outMtime) ∧
    ((buildExtensionCommand st).rebuilt = false →
      (buildExtensionCommand st).result = some st.cachedText ∧
      (buildExtensionCommand st).after = st) ∧
    (∀ out : String, st.outMtime ≤ st.srcMtime → st.bundlerOutput = some out →
      (buildExtensionCommand st).rebuilt = true ∧
      (buildExtensionCommand st).result = some out ∧
      (buildExtensionCommand st).after.outExists = true ∧
      (buildExtensionCommand st).after.cachedText = out) := by
  refine ⟨?_, ?_, ?_⟩
  · rw [rebuilt_eq_false_iff, cacheHit_iff]
    constructor
    · rintro ⟨h1, _, h3⟩; exact ⟨h1, h3⟩
    · rintro ⟨h1, h3⟩; exact ⟨h1, hstat, h3⟩
  · intro h
    have hh : cacheHit st = true := (rebuilt_eq_false_iff st).mp h
    simp [buildExtensionCommand, hh]
  · intro out hle hb
    have hh : cacheHit st = false := by
      rw [← Bool.not_eq_true]
      intro hc
      exact absurd ((cacheHit_iff st).mp hc).2.2 (Nat.not_lt.mpr hle)
    simp [buildExtensionCommand, hh, hb]

/-- C2, witness: a strictly-newer cache file is returned verbatim; an
equal-mtime (stale) cache forces a rebuild whose output is written back. -/
theorem c2_cache_witness :
    (buildExtensionCommand sampleHitState).rebuilt = false ∧
    (buildExtensionCommand sampleHitState).result = some "cached-bundle" ∧
    (buildExtensionCommand sampleStaleState).rebuilt = true ∧
    (buildExtensionCommand sampleStaleState).after.cachedText = "fresh-bundle" :=
  ⟨((c2_cache_validity sampleHitState rfl).1).mpr ⟨rfl, by decide⟩,
   ((c2_cache_validity sampleHitState rfl).2.1
     (((c2_cache_validity sampleHitState rfl).1).mpr ⟨rfl, by decide⟩)).1,
   ((c2_cache_validity sampleStaleState rfl).2.2 "fresh-bundle"
     (by decide) rfl).1,
   ((c2_cache_validity sampleStaleState rfl).2.2 "fresh-bundle"
     (by decide) rfl).2.2.2⟩

/-- C3: the probe of a `view`-declared entry: a thenable return reclassifies
the command to no-view (and with the detected flag set the lifecycle indeed
runs it as no-view); a renderable (valid React element) return is rendered
and the command stays in view mode; a synchronous throw also stays in view
mode and renders the entry as a component via normal instantiation. -/
theorem c3_view_probe_classification :
    safeViewRender (ProbeOutcome.returns ProbeValue.thenable) =
      RenderAction.reclassifyNoView ∧
    isNoView "view" true = true ∧
    safeViewRender (ProbeOutcome.returns ProbeValue.element) =
      RenderAction.renderElement ∧
    isNoView "view" false = false ∧
    safeViewRender ProbeOutcome.throws = RenderAction.instantiateComponent := by
  refine ⟨by decide, by decide, by decide, by decide, by decide⟩

/-- C4: `ensureGlobals` leaves each of `process`, `Buffer` and `global`
present: an absent binding is injected (the process stub, the buffer
constructor, and the global object itself under its Node-conventional alias)
while an already-present binding is never overwritten; the host's `globalThis`
self-reference is untouched, the whole injection is idempotent (so it is not
re-created per load), and no other global is disturbed. -/
theorem c4_ensure_globals (env : GlobalEnv) :
    ensureGlobals env "process" = some ((env "process").getD GVal.processStub) ∧
    ensureGlobals env "Buffer" = some ((env "Buffer").getD GVal.bufferCtor) ∧
    ensureGlobals env "global" =
      some ((env "global").getD GVal.theGlobalObject) ∧
    (env "globalThis" = some GVal.theGlobalObject →
      ensureGlobals env "globalThis" = some GVal.theGlobalObject) ∧
    ensureGlobals (ensureGlobals env) = ensureGlobals env ∧
    (∀ n, n ≠ "process" → n ≠ "Buffer" → n ≠ "global" →
      ensureGlobals env n = env n) := by
  have hother : ∀ n, n ≠ "process" → n ≠ "Buffer" → n ≠ "global" →
      ensureGlobals env n = env n := by
    intro n h1 h2 h3
    unfold ensureGlobals
    rw [setIfAbsent_ne _ _ _ _ h3, setIfAbsent_ne _ _ _ _ h2,
      setIfAbsent_ne _ _ _ _ h1]
  have hp : ensureGlobals env "process" =
      some ((env "process").getD GVal.processStub) := by
    unfold ensureGlobals
    rw [setIfAbsent_ne _ _ _ _ (by decide), setIfAbsent_ne _ _ _ _ (by decide),
      setIfAbsent_same]
  have hb : ensureGlobals env "Buffer" =
      some ((env "Buffer").getD GVal.bufferCtor) := by
    unfold ensureGlobals
    rw [setIfAbsent_ne _ _ _ _ (by decide), setIfAbsent_same,
      setIfAbsent_ne _ _ _ _ (by decide)]
  have hg : ensureGlobals env "global" =
      some ((env "global").getD GVal.theGlobalObject) := by
    unfold ensureGlobals
    rw [setIfAbsent_same, setIfAbsent_ne _ _ _ _ (by decide),
      setIfAbsent_ne _ _ _ _ (by decide)]
  refine ⟨hp, hb, hg, ?_, ?_, hother⟩
  · intro h
    rw [hother "globalThis" (by decide) (by decide) (by decide)]
    exact h
  · show setIfAbsent (setIfAbsent (setIfAbsent (ensureGlobals env)
      "process" GVal.processStub) "Buffer" GVal.bufferCtor)
      "global" GVal.theGlobalObject = ensureGlobals env
    rw [setIfAbsent_of_isSome (ensureGlobals env) "process" GVal.processStub
        (by rw [hp]; rfl),
      setIfAbsent_of_isSome (ensureGlobals env) "Buffer" GVal.bufferCtor
        (by rw [hb]; rfl),
      setIfAbsent_of_isSome (ensureGlobals env) "global" GVal.theGlobalObject
        (by rw [hg]; rfl)]

/-- C4, witness: on a scope holding only the host `globalThis` reference and
a pre-existing `Buffer`, injection fills `process` and `global`, keeps the
existing `Buffer` (no overwrite), and leaves `globalThis` intact. -/
theorem c4_ensure_globals_witness :
    ensureGlobals sampleGlobalEnv "process" = some GVal.processStub ∧
    ensureGlobals sampleGlobalEnv "Buffer" = some (GVal.hostVal 5) ∧
    ensureGlobals sampleGlobalEnv "global" = some GVal.theGlobalObject ∧
    ensureGlobals sampleGlobalEnv "globalThis" = some GVal.theGlobalObject :=
  ⟨(c4_ensure_globals sampleGlobalEnv).1,
   (c4_ensure_globals sampleGlobalEnv).2.1,
   (c4_ensure_globals sampleGlobalEnv).2.2.1,
   (c4_ensure_globals sampleGlobalEnv).2.2.2.1 rfl⟩

/-- C5, counterexample: the claim says every host-builtin stub is
non-throwing, but three stubs throw on concrete inputs: the `assert` stub on
a falsy argument, the `url` stub's `parse` (which is `new URL`) on a
malformed URL string, and `utilStub.inspect` (which is `JSON.stringify`) on
a circular value. -/
theorem c5_throwing_stubs_counterexample :
    assertStub false = Except.error "Assertion failed" ∧
    urlStub_parse sampleBadUrl = Except.error "Invalid URL" ∧
    utilStub_inspect sampleCircularObj =
      Except.error "Converting circular structure to JSON" :=
  ⟨rfl, rfl, rfl⟩

/-- C5, amended: no stub throws merely because the underlying capability is
unavailable — the fs/os/tty/buffer stubs return inert defaults
(false/empty/no-op) from synchronous calls, the asynchronous-style
`fs.promises` calls resolve successfully with empty payloads, and the
process-like identity stub reports the fixed platform `darwin` with an
empty environment — but the surface is not universally non-throwing: stubs
that reimplement input-validating APIs throw exactly on the inputs the real
API rejects (`assert` on a falsy argument, `url.parse` on a malformed URL,
`util.inspect` on a circular value), each succeeding on well-formed input. -/
theorem c5_stub_surface (u : UrlString) (o : JsObjectShape) :
    (fsStub_existsSync = false ∧
     fsStub_readFileSync = "" ∧
     fsStub_readdirSync = [] ∧
     fsPromisesStub_readFile = Except.ok () ∧
     fsPromisesStub_readdir = Except.ok [] ∧
     osStub_platform = "darwin" ∧
     ttyStub_isatty = false ∧
     bufferStub_isBuffer = false ∧
     processStub.platform = "darwin" ∧
     processStub.env = []) ∧
    (∀ b, assertStub b = Except.ok () ∨
      assertStub b = Except.error "Assertion failed") ∧
    assertStub true = Except.ok () ∧
    (u.wellFormed = true → urlStub_parse u = Except.ok u.text) ∧
    (u.wellFormed = false → urlStub_parse u = Except.error "Invalid URL") ∧
    (o.circular = false → utilStub_inspect o = Except.ok o.json) ∧
    (o.circular = true → utilStub_inspect o =
      Except.error "Converting circular structure to JSON") := by
  refine ⟨⟨rfl, rfl, rfl, rfl, rfl, rfl, rfl, rfl, rfl, rfl⟩,
    ?_, rfl, ?_, ?_, ?_, ?_⟩
  · intro b
    cases b
    · right; rfl
    · left; rfl
  · intro h; simp [urlStub_parse, h]
  · intro h; simp [urlStub_parse, h]
  · intro h; simp [utilStub_inspect, h]
  · intro h; simp [utilStub_inspect, h]

/-- C5, witness: the amended theorem at a well-formed and a malformed URL
and at a plain and a circular object. -/
theorem c5_stub_witness :
    urlStub_parse sampleGoodUrl = Except.ok "https://example.com/" ∧
    urlStub_parse sampleBadUrl = Except.error "Invalid URL" ∧
    utilStub_inspect samplePlainObj = Except.ok "null" ∧
    utilStub_inspect sampleCircularObj =
      Except.error "Converting circular structure to JSON" :=
  ⟨(c5_stub_surface sampleGoodUrl samplePlainObj).2.2.2.1 rfl,
   (c5_stub_surface sampleBadUrl samplePlainObj).2.2.2.2.1 rfl,
   (c5_stub_surface sampleGoodUrl samplePlainObj).2.2.2.2.2.1 rfl,
   (c5_stub_surface sampleGoodUrl sampleCircularObj).2.2.2.2.2.2 rfl⟩

/-- C6: in one command session, `push` appends a frame, `pop` removes the top
frame when the stack is non-empty, and `pop` on an empty stack closes the
session; consequently pushing N frames and popping N times returns the stack
to empty without closing, and the (N+1)-th pop closes the session. -/
theorem c6_navigation_stack (frames : List Nat) :
    (∀ f s, push f s = ⟨s.stack ++ [f], s.closed⟩) ∧
    (∀ s : NavSession, s.stack ≠ [] → pop s = ⟨s.stack.dropLast, s.closed⟩) ∧
    (∀ s : NavSession, s.stack = [] → pop s = ⟨s.stack, true⟩) ∧
    popN frames.length (pushAll frames ⟨[], false⟩) = ⟨[], false⟩ ∧
    pop (popN frames.length (pushAll frames ⟨[], false⟩)) = ⟨[], true⟩ := by
  have hdrained : popN frames.length (pushAll frames ⟨[], false⟩) =
      ⟨[], false⟩ := by
    rw [pushAll_spec frames ⟨[], false⟩]
    exact popN_drain frames.length frames false rfl
  refine ⟨?_, pop_nonempty, pop_empty, hdrained, ?_⟩
  · intro f s; rfl
  · rw [hdrained]
    exact pop_empty ⟨[], false⟩ rfl

/-- C6, witness: the navigation theorem at a concrete two-frame session, plus
the non-empty and empty `pop` rules at concrete stacks. -/
theorem c6_navigation_witness :
    pop ⟨[1, 2], false⟩ = ⟨[1], false⟩ ∧
    pop ⟨[], false⟩ = ⟨[], true⟩ ∧
    popN 2 (pushAll [1, 2] ⟨[], false⟩) = ⟨[], false⟩ ∧
    pop (popN 2 (pushAll [1, 2] ⟨[], false⟩)) = ⟨[], true⟩ :=
  ⟨(c6_navigation_stack []).2.1 ⟨[1, 2], false⟩ (by decide),
   (c6_navigation_stack []).2.2.1 ⟨[], false⟩ rfl,
   (c6_navigation_stack [1, 2]).2.2.2.1,
   (c6_navigation_stack [1, 2]).2.2.2.2⟩

/-- C7: no-view execution — a successful settlement (not cancelled) moves the
runner to done and schedules the auto-close 600 ms later; a rejection moves it
to error with the rejection's message captured (message "boom" is captured as
"boom") and schedules no close, so dismissal stays explicit; and once the
one-shot cancellation flag is set, any settlement leaves the state entirely
unchanged and schedules nothing. -/
theorem c7_no_view_execution :
    (settle false RunOutcome.success initialRunnerState).status =
      RunStatus.done ∧
    (settle false RunOutcome.success initialRunnerState).closeDelayMs =
      some 600 ∧
    (∀ m, (settle false (RunOutcome.failure m) initialRunnerState).status =
        RunStatus.error ∧
      (settle false (RunOutcome.failure m) initialRunnerState).closeDelayMs =
        none ∧
      (settle false (RunOutcome.failure m) initialRunnerState).errorMsg =
        capturedMessage m) ∧
    (settle false (RunOutcome.failure (some "boom"))
      initialRunnerState).errorMsg = "boom" ∧
    (∀ out s, settle true out s = s) := by
  refine ⟨rfl, rfl, ?_, by decide, ?_⟩
  · intro m
    exact ⟨rfl, rfl, rfl⟩
  · intro out s
    rfl

/-- C8: after executing a bundle, the loader takes the exports object's
`default` export, falling back to the whole exports object; a callable result
is returned (that very value), a non-callable one makes the load fail with
`null`, and an execution error — syntax or runtime — is caught and yields
`null` exactly like a load failure. -/
theorem c8_load_extension_export (msg : String) (ex : ExportsObj) (d : JsVal) :
    loadExtensionExport (Except.error msg) = none ∧
    (ex.defaultProp = some d → jsCallable d = true →
      loadExtensionExport (Except.ok ex) = some d) ∧
    (ex.defaultProp = none → jsCallable ex.self = true →
      loadExtensionExport (Except.ok ex) = some ex.self) ∧
    (ex.defaultProp = none → jsCallable ex.self = false →
      loadExtensionExport (Except.ok ex) = none) ∧
    (ex.defaultProp = some d → jsTruthy d = true → jsCallable d = false →
      loadExtensionExport (Except.ok ex) = none) := by
  refine ⟨rfl, ?_, ?_, ?_, ?_⟩
  · intro hd hc
    cases d with
    | fnVal i => simp [loadExtensionExport, hd, jsTruthy, jsCallable]
    | truthyObj i => simp [jsCallable] at hc
    | falsyVal i => simp [jsCallable] at hc
  · intro hd hc
    simp [loadExtensionExport, hd, hc]
  · intro hd hc
    simp [loadExtensionExport, hd, hc]
  · intro hd ht hc
    simp [loadExtensionExport, hd, ht, hc]

/-- C8, witness: a truthy callable default is returned; with no default a
callable exports object is returned; a non-callable exports object fails. -/
theorem c8_load_witness :
    loadExtensionExport
      (Except.ok ⟨JsVal.falsyVal 0, some (JsVal.fnVal 3)⟩) =
        some (JsVal.fnVal 3) ∧
    loadExtensionExport (Except.ok ⟨JsVal.fnVal 4, none⟩) =
      some (JsVal.fnVal 4) ∧
    loadExtensionExport (Except.ok ⟨JsVal.truthyObj 1, none⟩) = none :=
  ⟨(c8_load_extension_export "e" ⟨JsVal.falsyVal 0, some (JsVal.fnVal 3)⟩
      (JsVal.fnVal 3)).2.1 rfl rfl,
   (c8_load_extension_export "e" ⟨JsVal.fnVal 4, none⟩
      (JsVal.fnVal 0)).2.2.1 rfl rfl,
   (c8_load_extension_export "e" ⟨JsVal.truthyObj 1, none⟩
      (JsVal.fnVal 0)).2.2.2.1 rfl rfl⟩

/-- C9: discovery is fault-isolated per extension — it is a total function
(never throws, by construction); an absent extensions root yields the empty
list; an extension whose stat throws, that is not a directory, that lacks a
manifest, or whose manifest fails to parse contributes nothing while every
other extension's commands are still emitted; commands with an empty name are
skipped individually; and an extension whose icon cannot be read still emits
its well-formed commands, just without icon data. -/
theorem c9_discovery_isolation :
    (∀ es, discoverInstalledExtensionCommands ⟨false, es⟩ = []) ∧
    (∀ e, badExtensionEntry e → discoverOne e = []) ∧
    (∀ es₁ es₂ bad, badExtensionEntry bad →
      discoverInstalledExtensionCommands ⟨true, es₁ ++ bad :: es₂⟩ =
        discoverInstalledExtensionCommands ⟨true, es₁⟩ ++
          discoverInstalledExtensionCommands ⟨true, es₂⟩) ∧
    (∀ dir pt ic t d m rest,
      processCommands dir pt ic (CmdEntryRaw.entry "" t d m :: rest) =
        processCommands dir pt ic rest) ∧
    (∀ e pkg, e.statResult = Except.ok true → e.pkgJsonExists = true →
      e.pkgParse = Except.ok pkg →
      getExtensionIconDataUrl e.iconCandidates = none →
      discoverOne e =
        processCommands e.dirName pkg.title none (pkg.commands.getD [])) := by
  refine ⟨?_, fun e h => discoverOne_bad h, ?_, ?_, ?_⟩
  · intro es
    simp [discoverInstalledExtensionCommands]
  · intro es₁ es₂ bad hbad
    simp [discoverInstalledExtensionCommands, discoverOne_bad hbad]
  · intro dir pt ic t d m rest
    simp [processCommands]
  · intro e pkg h1 h2 h3 h4
    simp [discoverOne, h1, h2, h3, h4]

/-- C9, witness: a healthy extension next to one with an unparseable manifest
is discovered as if the broken one were absent. -/
theorem c9_discovery_witness :
    discoverInstalledExtensionCommands ⟨true, [goodExtEntry, badExtEntry]⟩ =
      discoverInstalledExtensionCommands ⟨true, [goodExtEntry]⟩ ++
        discoverInstalledExtensionCommands ⟨true, []⟩ :=
  (c9_discovery_isolation).2.2.1 [goodExtEntry] [] badExtEntry
    (Or.inr (Or.inr (Or.inr rfl)))

/-- C10: the loader's default-export fallback triggers on any falsy
`default`, not only on absence — a bundle assigning a callable directly to
`module.exports` (no `default` property) loads and that very callable is
returned, while an exports object with a present-but-falsy `default` behaves
exactly as if it had no `default` at all, so it loads only when the whole
exports object is itself callable. -/
theorem c10_falsy_default_fallback (self d : JsVal) (i : Nat) :
    loadExtensionExport (Except.ok ⟨JsVal.fnVal i, none⟩) =
      some (JsVal.fnVal i) ∧
    (jsTruthy d = false →
      loadExtensionExport (Except.ok ⟨self, some d⟩) =
        loadExtensionExport (Except.ok ⟨self, none⟩)) ∧
    (jsTruthy d = false → jsCallable self = false →
      loadExtensionExport (Except.ok ⟨self, some d⟩) = none) := by
  refine ⟨?_, ?_, ?_⟩
  · simp [loadExtensionExport, jsCallable]
  · intro ht
    simp [loadExtensionExport, ht]
  · intro ht hc
    simp [loadExtensionExport, ht, hc]

/-- C10, witness: a falsy `default` next to a callable `module.exports` loads
the module function, and next to a non-callable exports object loads
nothing. -/
theorem c10_falsy_default_witness :
    loadExtensionExport (Except.ok ⟨JsVal.fnVal 9, some (JsVal.falsyVal 0)⟩) =
      loadExtensionExport (Except.ok ⟨JsVal.fnVal 9, none⟩) ∧
    loadExtensionExport
      (Except.ok ⟨JsVal.truthyObj 2, some (JsVal.falsyVal 1)⟩) = none :=
  ⟨(c10_falsy_default_fallback (JsVal.fnVal 9) (JsVal.falsyVal 0) 0).2.1 rfl,
   (c10_falsy_default_fallback (JsVal.truthyObj 2) (JsVal.falsyVal 1) 0).2.2
     rfl rfl⟩

end SuperCommand
